import Mathlib

/-!
Verification of the ComfyUI workflow job orchestrator
(`src/mcpart/tools/comfyui_tools.py`).

The Python module is embedded shallowly:

* JSON-ish values are `JVal`; a workflow graph is an ordered association
  list of node id to `Node` (Python dicts preserve insertion order).
* `update_workflow_params` is embedded as a pure function; the calls to
  `random.randint(0, 2**32 - 1)` are modelled by an abstract entropy
  stream `σ : Nat → Nat` whose k-th draw is reduced mod `2^32`, which is
  exactly the contract of `randint` (a uniform integer in `[0, 2^32-1]`).
* `wait_for_completion` is embedded in a discrete-time model: the HTTP
  poll itself takes no time, `time.sleep(2)` advances the clock by 2, so
  the n-th poll happens at elapsed time `2*n` and the loop guard
  `time.time() - start_time < timeout` becomes `2*n < timeout`.  The
  engine's `/history/{prompt_id}` endpoint is an oracle
  `hist : Nat → Option HistEntry` giving, for the n-th poll, whether the
  job id is a key of the response and, if so, the parsed entry.
* `get_image_path` is embedded with the `/view` download endpoint as an
  oracle `view : filename → subfolder → Bytes` and the local output
  directory as an association list from filename to file content.
* `check_comfyui_status` is embedded with the outcome of each of the two
  endpoint reads (`/system_stats`, `/queue`) as an `Except` value: an
  `.error` is a raised transport/parse exception, an `.ok` the parsed
  payload.
-/

namespace ComfyUI

/-- Python's `pat in s` substring test, at the character-list level:
does `pat` occur at the head of `s`? -/
def matchHere : List Char → List Char → Bool
  | [], _ => true
  | _ :: _, [] => false
  | p :: ps, c :: cs => p == c && matchHere ps cs

/-- Python's `pat in s` substring test over character lists. -/
def subList (pat : List Char) : List Char → Bool
  | [] => pat.isEmpty
  | c :: cs => matchHere pat (c :: cs) || subList pat cs

/-- Python's `pat in s` membership test on strings. -/
def pyIn (pat s : String) : Bool := subList pat.data s.data

/-- Python's `str.lower()` (ASCII case folding, as used on node titles). -/
def lower (s : String) : String := String.mk (s.data.map Char.toLower)

/-- A JSON-ish input value: the injector reads and writes strings and
numbers and treats every other value as opaque. -/
inductive JVal where
  | s (v : String)
  | i (v : Int)
  | q (v : Rat)
  | other (tag : Nat)
deriving DecidableEq

/-- A workflow node: `class_type` (absent modelled as `""`, matching
`node.get("class_type", "")`), the `inputs` dict as an ordered
association list, and the optional `_meta.title`. -/
structure Node where
  class_type : String
  inputs : List (String × JVal)
  title : Option String
deriving DecidableEq

/-- A workflow graph: node id to node, in insertion order. -/
abbrev Graph := List (String × Node)

/-- Python dict assignment `d[k] = v` on an ordered association list:
replace the first binding of `k` in place, else append. -/
def setKey : List (String × JVal) → String → JVal → List (String × JVal)
  | [], k, v => [(k, v)]
  | (k0, v0) :: rest, k, v =>
    if k0 = k then (k, v) :: rest else (k0, v0) :: setKey rest k v

/-- Python dict lookup `d[k]` on an ordered association list. -/
def getKey : List (String × JVal) → String → Option JVal
  | [], _ => none
  | (k0, v0) :: rest, k => if k0 = k then some v0 else getKey rest k

/-- Drop every binding of key `k` (used to state "equal except this
field"). -/
def eraseKey : List (String × JVal) → String → List (String × JVal)
  | [], _ => []
  | (k0, v0) :: rest, k =>
    if k0 = k then eraseKey rest k else (k0, v0) :: eraseKey rest k

/-- The generation request handed to `update_workflow_params`
(its `prompt`, `negative_prompt`, `width`, `height`, `steps`, `cfg`
parameters). -/
structure GenRequest where
  prompt : String
  negative_prompt : String
  width : Int
  height : Int
  steps : Int
  cfg : Rat
deriving DecidableEq

/-- `random.randint(0, 2**32 - 1)`: the k-th draw from the entropy
stream, reduced to the contract's range `[0, 2^32 - 1]`. -/
def randint32 (entropy : Nat) : Nat := entropy % 2 ^ 32

/-- The per-node body of the `for node_id, node in workflow.items()`
loop of `ComfyUIClient.update_workflow_params` (the `seed` argument is
the value `random.randint` returns when this node is a `KSampler`). -/
def updateNode (r : GenRequest) (seed : Nat) (node_id : String) (n : Node) : Node :=
  if n.class_type = "CLIPTextEncode" then
    if pyIn "positive" (lower (n.title.getD "")) || pyIn "prompt" (lower node_id) then
      { n with inputs := setKey n.inputs "text" (JVal.s r.prompt) }
    else if pyIn "negative" (lower (n.title.getD "")) then
      { n with inputs := setKey n.inputs "text" (JVal.s r.negative_prompt) }
    else n
  else if n.class_type = "EmptyLatentImage" ∨ n.class_type = "EmptySD3LatentImage" then
    { n with inputs :=
        setKey (setKey n.inputs "width" (JVal.i r.width)) "height" (JVal.i r.height) }
  else if n.class_type = "KSampler" then
    { n with inputs :=
        setKey (setKey (setKey n.inputs "steps" (JVal.i r.steps))
          "cfg" (JVal.q r.cfg)) "seed" (JVal.i seed) }
  else n

/-- The loop of `update_workflow_params`, threading the count `k` of
`random.randint` calls made so far (one per `KSampler` node). -/
def updateNodesFrom (r : GenRequest) (σ : Nat → Nat) :
    List (String × Node) → Nat → List (String × Node)
  | [], _ => []
  | (node_id, n) :: rest, k =>
    (node_id, updateNode r (randint32 (σ k)) node_id n) ::
      updateNodesFrom r σ rest (if n.class_type = "KSampler" then k + 1 else k)

/-- `ComfyUIClient.update_workflow_params`, with the random number
generator made explicit as the entropy stream `σ`. -/
def update_workflow_params (workflow : Graph) (r : GenRequest) (σ : Nat → Nat) : Graph :=
  updateNodesFrom r σ workflow 0

/-- Erase the `seed` input of a node when it is a `KSampler` (used to
state "equal except for the samplers' seed field"). -/
def scrubNode (p : String × Node) : String × Node :=
  if p.2.class_type = "KSampler" then
    (p.1, { p.2 with inputs := eraseKey p.2.inputs "seed" })
  else p

/-- Erase the `seed` input of every `KSampler` node of a graph. -/
def scrubSeed (g : Graph) : Graph :=
  g.map scrubNode

/-- One entry of an output node's `images` list: `filename` is read with
`img_info["filename"]`, `subfolder` with `img_info.get("subfolder", "")`
(so an absent key is an `Option`). -/
structure ImgInfo where
  filename : String
  subfolder : Option String
deriving DecidableEq

/-- One output node of a finished job's history entry: whether the
`"images"` key is present and, if so, its list. -/
structure NodeOutput where
  images : Option (List ImgInfo)
deriving DecidableEq

/-- The history entry for a job id: whether the `"outputs"` key is
present and, if so, the outputs mapping (node id to output, in the
engine's order). -/
structure HistEntry where
  outputs : Option (List (String × NodeOutput))
deriving DecidableEq

/-- The observable outcome of `ComfyUIClient.wait_for_completion`:
either the history entry it returns, or the raised
`TimeoutError(f"Generation timed out after {timeout}s")`. -/
inductive WaitResult where
  | complete (entry : HistEntry)
  | timedOut (timeout : Int)
deriving DecidableEq

/-- The polling loop of `wait_for_completion`, from its n-th iteration
on.  In the discrete-time model the n-th poll happens at elapsed time
`2 * n` (each earlier iteration slept 2 seconds), so the guard
`time.time() - start_time < timeout` is `2 * n < timeout`; `hist n` is
the n-th `GET /history/{prompt_id}` response, already keyed by the job
id (`none` when `prompt_id in history` is false). -/
def waitFrom (hist : Nat → Option HistEntry) (timeout : Int) (n : Nat) : WaitResult :=
  if _h : 2 * (n : Int) < timeout then
    match hist n with
    | some entry =>
      match entry.outputs with
      | some _ => WaitResult.complete entry
      | none => waitFrom hist timeout (n + 1)
    | none => waitFrom hist timeout (n + 1)
  else
    WaitResult.timedOut timeout
termination_by (timeout - 2 * (n : Int)).toNat
decreasing_by omega

/-- `ComfyUIClient.wait_for_completion` (loop started at elapsed time 0). -/
def wait_for_completion (hist : Nat → Option HistEntry) (timeout : Int) : WaitResult :=
  waitFrom hist timeout 0

/-- How many `GET /history/{prompt_id}` requests the loop of
`wait_for_completion` issues from its n-th iteration on (same recursion
structure as `waitFrom`). -/
def pollsFrom (hist : Nat → Option HistEntry) (timeout : Int) (n : Nat) : Nat :=
  if _h : 2 * (n : Int) < timeout then
    match hist n with
    | some entry =>
      match entry.outputs with
      | some _ => 1
      | none => 1 + pollsFrom hist timeout (n + 1)
    | none => 1 + pollsFrom hist timeout (n + 1)
  else
    0
termination_by (timeout - 2 * (n : Int)).toNat
decreasing_by omega

/-- Total number of status polls a `wait_for_completion` call issues. -/
def waitPolls (hist : Nat → Option HistEntry) (timeout : Int) : Nat :=
  pollsFrom hist timeout 0

/-- The completion test the loop body applies to one poll's response:
`prompt_id in history` and `"outputs" in history[prompt_id]`. -/
def entryHasOutputs : Option HistEntry → Bool
  | some e => e.outputs.isSome
  | none => false

/-- Raw file content. -/
abbrev Bytes := List Nat

/-- The local output directory, as a mapping from filename to content
(paths are relative to `self.output_dir`). -/
abbrev FS := List (String × Bytes)

/-- `output_path.write_bytes(content)`: create the file or silently
overwrite an existing one of the same name. -/
def writeFile : FS → String → Bytes → FS
  | [], path, content => [(path, content)]
  | (p, c) :: rest, path, content =>
    if p = path then (path, content) :: rest else (p, c) :: writeFile rest path content

/-- Read a file of the output directory back (used only to state what
`write_bytes` left on disk). -/
def readFile : FS → String → Option Bytes
  | [], _ => none
  | (p, c) :: rest, path => if p = path then some c else readFile rest path

/-- The scan of `ComfyUIClient.get_image_path` over
`history.get("outputs", {}).values()`: the first node whose `images`
list is non-empty has its first image downloaded (`view filename
subfolder` is the `GET /view` response body) and written to the output
directory; the function returns the local path (the filename, relative
to the output directory) and the resulting directory state. -/
def get_image_path (view : String → String → Bytes) (fs : FS) :
    List (String × NodeOutput) → Option String × FS
  | [] => (none, fs)
  | (_, node_output) :: rest =>
    match node_output.images with
    | none => get_image_path view fs rest
    | some [] => get_image_path view fs rest
    | some (img :: _) =>
      let content := view img.filename (img.subfolder.getD "")
      (some img.filename, writeFile fs img.filename content)

/-- The first image of the first output node whose `images` list is
non-empty — the artifact `get_image_path` selects. -/
def firstImage : List (String × NodeOutput) → Option ImgInfo
  | [] => none
  | (_, node_output) :: rest =>
    match node_output.images with
    | some (img :: _) => some img
    | some [] => firstImage rest
    | none => firstImage rest

/-- The failures `ComfyUIClient.generate` can raise after submission:
the propagated `TimeoutError` of `wait_for_completion`, or its own
`ValueError("No image found in generation output")` when
`get_image_path` found no artifact. -/
inductive GenError where
  | timedOut (timeout : Int)
  | noImage
deriving DecidableEq

/-- The wait-then-fetch tail of `ComfyUIClient.generate` (submission of
the injected workflow yields the job id whose polls `w` summarises):
propagate a timeout, otherwise extract the image; if `get_image_path`
returned `None`, raise `ValueError("No image found in generation
output")`, else return the artifact path and directory state. -/
def generate_result (w : WaitResult) (view : String → String → Bytes) (fs : FS) :
    Except GenError (String × FS) :=
  match w with
  | WaitResult.timedOut t => Except.error (GenError.timedOut t)
  | WaitResult.complete entry =>
    match get_image_path view fs (entry.outputs.getD []) with
    | (none, _) => Except.error GenError.noImage
    | (some p, fs2) => Except.ok (p, fs2)

/-- Parsed `GET /system_stats` payload, reduced to the fields
`check_comfyui_status` reads (each read with a `.get` default, so the
extraction itself cannot fail). -/
structure SystemStats where
  devices : List String
  vram_total : Nat
  vram_free : Nat
deriving DecidableEq

/-- Parsed `GET /queue` payload, reduced to the two lists whose lengths
`check_comfyui_status` reports. -/
structure QueueInfo where
  queue_pending : List Nat
  queue_running : List Nat
deriving DecidableEq

/-- The dict `check_comfyui_status` returns. -/
structure StatusResult where
  success : Bool
  status : String
  queue_pending : Option Nat
  queue_running : Option Nat
  error : Option String
  message : String
deriving DecidableEq

/-- The `except Exception` branch of `check_comfyui_status`. -/
def statusFailure (e : String) : StatusResult :=
  { success := false
    status := "not_responding"
    queue_pending := none
    queue_running := none
    error := some e
    message := "ComfyUI is not responding. Start it with: ./scripts/start-comfyui.sh" }

/-- `check_comfyui_status`: the whole body runs under one
`try/except Exception`.  `stats` is the outcome of
`requests.get(.../system_stats).json()` and `queue` the outcome of
`requests.get(.../queue).json()`; an `.error` is any raised transport or
parse exception (its string form), and the first failure reaches the
`except` branch without the second read happening. -/
def check_comfyui_status (stats : Except String SystemStats)
    (queue : Except String QueueInfo) : StatusResult :=
  match stats with
  | Except.error e => statusFailure e
  | Except.ok _ =>
    match queue with
    | Except.error e => statusFailure e
    | Except.ok q =>
      { success := true
        status := "running"
        queue_pending := some q.queue_pending.length
        queue_running := some q.queue_running.length
        error := none
        message := "ComfyUI is running and responsive" }

/-- The `size_map` dict of the `generate_image` tool. -/
def size_map_lookup (size : String) : Option (Int × Int) :=
  if size = "512x512" then some (512, 512)
  else if size = "1024x1024" then some (1024, 1024)
  else if size = "1024x1792" then some (1024, 1792)
  else if size = "1792x1024" then some (1792, 1024)
  else none

/-- The arguments `generate_image` passes to `ComfyUIClient.generate`. -/
structure GenerateArgs where
  prompt : String
  width : Int
  height : Int
  steps : Int
deriving DecidableEq

/-- The argument preprocessing of the `generate_image` tool:
`size_map.get(size, (1024, 1024))`, the quality-to-steps mapping, and
the style suffix appended to the prompt. -/
def generate_image_args (prompt size quality style : String) : GenerateArgs :=
  let wh := (size_map_lookup size).getD (1024, 1024)
  let steps : Int := if quality = "hd" then 30 else 20
  let prompt2 :=
    if style = "vivid" then prompt ++ ", vibrant colors, artistic, stylized"
    else if style = "natural" then prompt ++ ", photorealistic, natural lighting"
    else prompt
  { prompt := prompt2, width := wh.1, height := wh.2, steps := steps }

/-! ## Association-list lemmas -/

theorem getKey_setKey_self (l : List (String × JVal)) (k : String) (v : JVal) :
    getKey (setKey l k v) k = some v := by
  induction l with
  | nil => simp [setKey, getKey]
  | cons hd tl ih =>
    obtain ⟨k0, v0⟩ := hd
    by_cases h : k0 = k
    · simp [setKey, getKey, h]
    · simp [setKey, getKey, h, ih]

theorem getKey_setKey_ne (l : List (String × JVal)) (k k2 : String) (v : JVal)
    (h : k2 ≠ k) : getKey (setKey l k2 v) k = getKey l k := by
  induction l with
  | nil => simp [setKey, getKey, h]
  | cons hd tl ih =>
    obtain ⟨k0, v0⟩ := hd
    by_cases h0 : k0 = k2
    · simp [setKey, getKey, h0, h]
    · by_cases h1 : k0 = k
      · simp [setKey, getKey, h0, h1, Ne.symm h]
      · simp [setKey, getKey, h0, h1, ih]

theorem eraseKey_setKey (l : List (String × JVal)) (k : String) (v : JVal) :
    eraseKey (setKey l k v) k = eraseKey l k := by
  induction l with
  | nil => simp [setKey, eraseKey]
  | cons hd tl ih =>
    obtain ⟨k0, v0⟩ := hd
    by_cases h : k0 = k
    · simp [setKey, eraseKey, h]
    · simp [setKey, eraseKey, h, ih]

theorem readFile_writeFile (fs : FS) (p : String) (c : Bytes) :
    readFile (writeFile fs p c) p = some c := by
  induction fs with
  | nil => simp [writeFile, readFile]
  | cons hd tl ih =>
    obtain ⟨p0, c0⟩ := hd
    by_cases h : p0 = p
    · simp [writeFile, readFile, h]
    · simp [writeFile, readFile, h, ih]

/-! ## Shape lemmas for the injector's per-node action -/

theorem updateNode_class_type (r : GenRequest) (s : Nat) (id : String) (n : Node) :
    (updateNode r s id n).class_type = n.class_type := by
  unfold updateNode
  repeat' split
  all_goals rfl

theorem updateNode_sampler (r : GenRequest) (s : Nat) (id : String) (n : Node)
    (h : n.class_type = "KSampler") :
    updateNode r s id n =
      { n with inputs :=
          setKey (setKey (setKey n.inputs "steps" (JVal.i r.steps))
            "cfg" (JVal.q r.cfg)) "seed" (JVal.i s) } := by
  simp [updateNode, h]

theorem updateNode_latent (r : GenRequest) (s : Nat) (id : String) (n : Node)
    (h : n.class_type = "EmptyLatentImage" ∨ n.class_type = "EmptySD3LatentImage") :
    updateNode r s id n =
      { n with inputs :=
          setKey (setKey n.inputs "width" (JVal.i r.width)) "height" (JVal.i r.height) } := by
  rcases h with h | h <;> simp [updateNode, h]

theorem updateNode_clip (r : GenRequest) (s : Nat) (id : String) (n : Node)
    (h : n.class_type = "CLIPTextEncode") :
    updateNode r s id n =
      if pyIn "positive" (lower (n.title.getD "")) || pyIn "prompt" (lower id) then
        { n with inputs := setKey n.inputs "text" (JVal.s r.prompt) }
      else if pyIn "negative" (lower (n.title.getD "")) then
        { n with inputs := setKey n.inputs "text" (JVal.s r.negative_prompt) }
      else n := by
  simp [updateNode, h]

theorem updateNode_seed_irrel (r : GenRequest) (s1 s2 : Nat) (id : String) (n : Node)
    (h : ¬ n.class_type = "KSampler") :
    updateNode r s1 id n = updateNode r s2 id n := by
  unfold updateNode
  rw [if_neg h]
  repeat' split
  all_goals rfl

/-! ## Claim C6: injection differs only in sampler seeds -/

theorem scrubNode_updateNode (r : GenRequest) (s1 s2 : Nat) (id : String) (n : Node) :
    scrubNode (id, updateNode r s1 id n) = scrubNode (id, updateNode r s2 id n) := by
  by_cases h : n.class_type = "KSampler"
  · rw [updateNode_sampler r s1 id n h, updateNode_sampler r s2 id n h]
    simp [scrubNode, h, eraseKey_setKey]
  · rw [updateNode_seed_irrel r s1 s2 id n h]

theorem scrubSeed_cons (p : String × Node) (l : Graph) :
    scrubSeed (p :: l) = scrubNode p :: scrubSeed l := rfl

theorem scrub_updateNodesFrom (r : GenRequest) (σ1 σ2 : Nat → Nat) :
    ∀ (wf : List (String × Node)) (k1 k2 : Nat),
      scrubSeed (updateNodesFrom r σ1 wf k1) = scrubSeed (updateNodesFrom r σ2 wf k2) := by
  intro wf
  induction wf with
  | nil => intro k1 k2; rfl
  | cons hd tl ih =>
    obtain ⟨id, n⟩ := hd
    intro k1 k2
    rw [updateNodesFrom, updateNodesFrom, scrubSeed_cons, scrubSeed_cons,
      scrubNode_updateNode r (randint32 (σ1 k1)) (randint32 (σ2 k2)) id n,
      ih (if n.class_type = "KSampler" then k1 + 1 else k1)
        (if n.class_type = "KSampler" then k2 + 1 else k2)]

/-- C6: injecting the same request into two fresh loads of the same
template (the same graph value, with independent randomness) yields
graphs equal in every node and every input field except the
`inputs.seed` field of `KSampler` nodes. -/
theorem C6_inject_equal_except_seed (wf : Graph) (r : GenRequest) (σ1 σ2 : Nat → Nat) :
    scrubSeed (update_workflow_params wf r σ1) = scrubSeed (update_workflow_params wf r σ2) :=
  scrub_updateNodesFrom r σ1 σ2 wf 0 0

/-! ## Claim C4: sampler and latent-size parameters after injection -/

/-- C4: after `update_workflow_params` returns, every `KSampler` node
has `inputs.steps = request.steps`, `inputs.cfg = request.guidance` and
an `inputs.seed` in `[0, 2^32 - 1]`, and every `EmptyLatentImage` /
`EmptySD3LatentImage` node has `inputs.width = request.width` and
`inputs.height = request.height`. -/
theorem C4_injected_params (wf : Graph) (r : GenRequest) (σ : Nat → Nat) :
    ∀ p ∈ update_workflow_params wf r σ,
      (p.2.class_type = "KSampler" →
        getKey p.2.inputs "steps" = some (JVal.i r.steps) ∧
        getKey p.2.inputs "cfg" = some (JVal.q r.cfg) ∧
        ∃ s : Int, 0 ≤ s ∧ s ≤ 2 ^ 32 - 1 ∧
          getKey p.2.inputs "seed" = some (JVal.i s)) ∧
      ((p.2.class_type = "EmptyLatentImage" ∨ p.2.class_type = "EmptySD3LatentImage") →
        getKey p.2.inputs "width" = some (JVal.i r.width) ∧
        getKey p.2.inputs "height" = some (JVal.i r.height)) := by
  have H : ∀ (wf2 : List (String × Node)) (k : Nat), ∀ p ∈ updateNodesFrom r σ wf2 k,
      (p.2.class_type = "KSampler" →
        getKey p.2.inputs "steps" = some (JVal.i r.steps) ∧
        getKey p.2.inputs "cfg" = some (JVal.q r.cfg) ∧
        ∃ s : Int, 0 ≤ s ∧ s ≤ 2 ^ 32 - 1 ∧
          getKey p.2.inputs "seed" = some (JVal.i s)) ∧
      ((p.2.class_type = "EmptyLatentImage" ∨ p.2.class_type = "EmptySD3LatentImage") →
        getKey p.2.inputs "width" = some (JVal.i r.width) ∧
        getKey p.2.inputs "height" = some (JVal.i r.height)) := by
    intro wf2
    induction wf2 with
    | nil => intro k p hp; simp [updateNodesFrom] at hp
    | cons hd tl ih =>
      obtain ⟨id, n⟩ := hd
      intro k p hp
      rw [updateNodesFrom, List.mem_cons] at hp
      rcases hp with rfl | hp
      · dsimp only
        constructor
        · intro hks
          have hn : n.class_type = "KSampler" := by
            rw [← updateNode_class_type r (randint32 (σ k)) id n]
            exact hks
          rw [updateNode_sampler r _ id n hn]
          dsimp only
          refine ⟨?_, ?_, ?_⟩
          · rw [getKey_setKey_ne _ _ _ _ (by decide),
              getKey_setKey_ne _ _ _ _ (by decide), getKey_setKey_self]
          · rw [getKey_setKey_ne _ _ _ _ (by decide), getKey_setKey_self]
          · refine ⟨(randint32 (σ k) : Nat), Int.ofNat_nonneg _, ?_,
              getKey_setKey_self _ _ _⟩
            have hlt : randint32 (σ k) < 2 ^ 32 := Nat.mod_lt _ (by norm_num)
            omega
        · intro hlat
          have hn : n.class_type = "EmptyLatentImage" ∨
              n.class_type = "EmptySD3LatentImage" := by
            rw [← updateNode_class_type r (randint32 (σ k)) id n]
            exact hlat
          rw [updateNode_latent r _ id n hn]
          dsimp only
          constructor
          · rw [getKey_setKey_ne _ _ _ _ (by decide), getKey_setKey_self]
          · rw [getKey_setKey_self]
      · exact ih (if n.class_type = "KSampler" then k + 1 else k) p hp
  exact H wf 0

/-- Witness for C4 at a concrete two-node workflow (a `KSampler` node
"3" and an `EmptyLatentImage` node "5") and the spec's example request
(width 832, height 1216, steps 25, guidance 6.5), entropy stream
constantly 5. -/
theorem C4_witness :
    (getKey [("steps", JVal.i 25), ("cfg", JVal.q (7 : Rat)),
        ("seed", JVal.i 5)] "steps" = some (JVal.i 25) ∧
      getKey [("steps", JVal.i 25), ("cfg", JVal.q (7 : Rat)),
        ("seed", JVal.i 5)] "cfg" = some (JVal.q (7 : Rat)) ∧
      ∃ s : Int, 0 ≤ s ∧ s ≤ 2 ^ 32 - 1 ∧
        getKey [("steps", JVal.i 25), ("cfg", JVal.q (7 : Rat)),
          ("seed", JVal.i 5)] "seed" = some (JVal.i s)) ∧
    (getKey [("width", JVal.i 832), ("height", JVal.i 1216)] "width" =
        some (JVal.i 832) ∧
      getKey [("width", JVal.i 832), ("height", JVal.i 1216)] "height" =
        some (JVal.i 1216)) := by
  constructor
  · exact (C4_injected_params
      [("3", ⟨"KSampler", [("steps", JVal.i 0)], none⟩),
        ("5", ⟨"EmptyLatentImage", [], none⟩)]
      ⟨"a cat", "blurry", 832, 1216, 25, (7 : Rat)⟩ (fun _ => 5)
      ("3", ⟨"KSampler", [("steps", JVal.i 25), ("cfg", JVal.q (7 : Rat)),
        ("seed", JVal.i 5)], none⟩) (by decide)).1 rfl
  · exact (C4_injected_params
      [("3", ⟨"KSampler", [("steps", JVal.i 0)], none⟩),
        ("5", ⟨"EmptyLatentImage", [], none⟩)]
      ⟨"a cat", "blurry", 832, 1216, 25, (7 : Rat)⟩ (fun _ => 5)
      ("5", ⟨"EmptyLatentImage", [("width", JVal.i 832), ("height", JVal.i 1216)],
        none⟩) (by decide)).2 (Or.inl rfl)

/-! ## Claim C1: role resolution for text-encoder nodes -/

theorem updateNodesFrom_getElem (r : GenRequest) (σ : Nat → Nat) :
    ∀ (wf : List (String × Node)) (k i : Nat) (node_id : String) (n : Node),
      wf[i]? = some (node_id, n) →
      ∃ s : Nat, (updateNodesFrom r σ wf k)[i]? =
        some (node_id, updateNode r s node_id n) := by
  intro wf
  induction wf with
  | nil => intro k i node_id n h; simp at h
  | cons hd tl ih =>
    obtain ⟨id0, n0⟩ := hd
    intro k i node_id n h
    cases i with
    | zero =>
      rw [List.getElem?_cons_zero, Option.some_inj] at h
      obtain ⟨rfl, rfl⟩ := Prod.mk.injEq .. ▸ h
      exact ⟨randint32 (σ k), by rw [updateNodesFrom, List.getElem?_cons_zero]⟩
    | succ i2 =>
      rw [List.getElem?_cons_succ] at h
      obtain ⟨s, hs⟩ :=
        ih (if n0.class_type = "KSampler" then k + 1 else k) i2 node_id n h
      exact ⟨s, by rw [updateNodesFrom, List.getElem?_cons_succ]; exact hs⟩

/-- C1 counterexample: a `CLIPTextEncode` node whose title is
"Negative Prompt" and whose identifier is "6".  The claim resolves it
positive (the title contains "prompt", and the title is inspected
first), so its `inputs.text` would become `request.prompt` ("POS"); the
code instead only checks the title for "positive" and the *identifier*
for "prompt", finds neither, matches "negative" in the title, and
writes `request.negative_prompt` ("NEG"). -/
theorem C1_counterexample :
    pyIn "prompt" (lower "Negative Prompt") = true ∧
    update_workflow_params
        [("6", ⟨"CLIPTextEncode", [("text", JVal.s "old")], some "Negative Prompt"⟩)]
        ⟨"POS", "NEG", 832, 1216, 25, (7 : Rat)⟩ (fun _ => 0) =
      [("6", ⟨"CLIPTextEncode", [("text", JVal.s "NEG")], some "Negative Prompt"⟩)] := by
  constructor
  · decide
  · decide

/-- C1 (amended): for a `CLIPTextEncode` node the code resolves the
role with a single ordered test — positive when the title contains
"positive" or the *node identifier* contains "prompt" (both
case-insensitively), otherwise negative when the title contains
"negative", otherwise the node is untouched.  The title is never
checked for "prompt", and the identifier test is part of the first
disjunction, not a fallback.  Positive writes `inputs.text =
request.prompt`, negative writes `inputs.text =
request.negative_prompt`. -/
theorem C1_role_resolution (wf : Graph) (r : GenRequest) (σ : Nat → Nat)
    (i : Nat) (node_id : String) (n : Node)
    (hget : wf[i]? = some (node_id, n))
    (hct : n.class_type = "CLIPTextEncode") :
    ((pyIn "positive" (lower (n.title.getD "")) || pyIn "prompt" (lower node_id)) = true →
      (update_workflow_params wf r σ)[i]? =
        some (node_id, { n with inputs := setKey n.inputs "text" (JVal.s r.prompt) })) ∧
    ((pyIn "positive" (lower (n.title.getD "")) || pyIn "prompt" (lower node_id)) = false →
      pyIn "negative" (lower (n.title.getD "")) = true →
      (update_workflow_params wf r σ)[i]? =
        some (node_id, { n with inputs := setKey n.inputs "text" (JVal.s r.negative_prompt) })) ∧
    ((pyIn "positive" (lower (n.title.getD "")) || pyIn "prompt" (lower node_id)) = false →
      pyIn "negative" (lower (n.title.getD "")) = false →
      (update_workflow_params wf r σ)[i]? = some (node_id, n)) := by
  obtain ⟨s, hs⟩ := updateNodesFrom_getElem r σ wf 0 i node_id n hget
  rw [update_workflow_params]
  refine ⟨?_, ?_, ?_⟩
  · intro hpos
    rw [hs, updateNode_clip r s node_id n hct, if_pos hpos]
  · intro hpos hneg
    rw [hs, updateNode_clip r s node_id n hct, if_neg ?_, if_pos hneg]
    simp [hpos]
  · intro hpos hneg
    rw [hs, updateNode_clip r s node_id n hct, if_neg ?_, if_neg ?_]
    · simp [hneg]
    · simp [hpos]

/-- Witness for C1 at a one-node workflow: node "7" titled
"Positive Prompt" resolves positive and gets `inputs.text = "POS"`. -/
theorem C1_witness :
    (update_workflow_params
        [("7", ⟨"CLIPTextEncode", [("text", JVal.s "old")], some "Positive Prompt"⟩)]
        ⟨"POS", "NEG", 832, 1216, 25, (7 : Rat)⟩ (fun _ => 0))[0]? =
      some ("7", ⟨"CLIPTextEncode",
        setKey [("text", JVal.s "old")] "text" (JVal.s "POS"),
        some "Positive Prompt"⟩) :=
  (C1_role_resolution
    [("7", ⟨"CLIPTextEncode", [("text", JVal.s "old")], some "Positive Prompt"⟩)]
    ⟨"POS", "NEG", 832, 1216, 25, (7 : Rat)⟩ (fun _ => 0) 0 "7"
    ⟨"CLIPTextEncode", [("text", JVal.s "old")], some "Positive Prompt"⟩
    rfl rfl).1 (by decide)

/-! ## Polling-loop lemmas -/

theorem waitFrom_neg (hist : Nat → Option HistEntry) (T : Int) (n : Nat)
    (hT : ¬ 2 * (n : Int) < T) : waitFrom hist T n = WaitResult.timedOut T := by
  rw [waitFrom, dif_neg hT]

theorem pollsFrom_neg (hist : Nat → Option HistEntry) (T : Int) (n : Nat)
    (hT : ¬ 2 * (n : Int) < T) : pollsFrom hist T n = 0 := by
  rw [pollsFrom, dif_neg hT]

theorem waitFrom_never (hist : Nat → Option HistEntry) (T : Int)
    (h : ∀ n, entryHasOutputs (hist n) = false) (n : Nat) :
    waitFrom hist T n = WaitResult.timedOut T := by
  induction n using waitFrom.induct hist T with
  | case1 x hlt entry hsome v hval =>
    have hx := h x
    rw [hsome] at hx
    simp [entryHasOutputs, hval] at hx
  | case2 x hlt entry hsome hnone ih =>
    rw [waitFrom, dif_pos hlt, hsome]
    dsimp only
    rw [hnone]
    exact ih
  | case3 x hlt hnone ih =>
    rw [waitFrom, dif_pos hlt, hnone]
    exact ih
  | case4 x hlt => exact waitFrom_neg hist T x hlt

theorem pollsFrom_never_one (hist : Nat → Option HistEntry)
    (h : ∀ n, entryHasOutputs (hist n) = false) :
    pollsFrom hist 1 0 = 1 := by
  have h2 : pollsFrom hist 1 1 = 0 := pollsFrom_neg hist 1 1 (by omega)
  rw [pollsFrom, dif_pos (by omega : 2 * ((0 : Nat) : Int) < 1)]
  have hx := h 0
  cases hhist : hist 0 with
  | none => simp [hhist, h2]
  | some e =>
    rw [hhist] at hx
    cases houts : e.outputs with
    | none => simp [hhist, houts, h2]
    | some v => simp [entryHasOutputs, houts] at hx

theorem waitFrom_complete_iff (hist : Nat → Option HistEntry) (T : Int) (n : Nat) :
    (∃ e, waitFrom hist T n = WaitResult.complete e) ↔
      (∃ m, n ≤ m ∧ 2 * (m : Int) < T ∧ entryHasOutputs (hist m) = true) := by
  induction n using waitFrom.induct hist T with
  | case1 x hlt entry hsome v hval =>
    constructor
    · intro _
      exact ⟨x, le_refl x, hlt, by simp [entryHasOutputs, hsome, hval]⟩
    · intro _
      refine ⟨entry, ?_⟩
      rw [waitFrom, dif_pos hlt, hsome]
      dsimp only
      rw [hval]
  | case2 x hlt entry hsome hnone ih =>
    rw [waitFrom, dif_pos hlt, hsome]
    dsimp only
    rw [hnone, ih]
    constructor
    · rintro ⟨m, hm, hmt, hme⟩
      exact ⟨m, by omega, hmt, hme⟩
    · rintro ⟨m, hm, hmt, hme⟩
      refine ⟨m, ?_, hmt, hme⟩
      rcases Nat.eq_or_lt_of_le hm with rfl | hlt2
      · rw [hsome] at hme
        simp [entryHasOutputs, hnone] at hme
      · omega
  | case3 x hlt hnone ih =>
    rw [waitFrom, dif_pos hlt, hnone, ih]
    constructor
    · rintro ⟨m, hm, hmt, hme⟩
      exact ⟨m, by omega, hmt, hme⟩
    · rintro ⟨m, hm, hmt, hme⟩
      refine ⟨m, ?_, hmt, hme⟩
      rcases Nat.eq_or_lt_of_le hm with rfl | hlt2
      · rw [hnone] at hme
        simp [entryHasOutputs] at hme
      · omega
  | case4 x hlt =>
    rw [waitFrom_neg hist T x hlt]
    constructor
    · rintro ⟨e, he⟩
      cases he
    · rintro ⟨m, hm, hmt, _⟩
      exfalso
      omega

/-! ## Claim C2: what counts as completion -/

/-- C2 counterexample: an engine whose status response always contains
the job's entry with an *empty* outputs mapping.  The claim says this is
treated as not-yet-complete and polling continues (so, with outputs
never non-empty, the call would time out); the code instead returns a
Complete job on the very first poll, because it only tests `"outputs" in
prompt_info`, not that the mapping is non-empty. -/
theorem C2_counterexample :
    wait_for_completion (fun _ => some ⟨some []⟩) 300 =
      WaitResult.complete ⟨some []⟩ := by
  rw [wait_for_completion, waitFrom]
  norm_num

/-- C2 (amended): `wait_for_completion` returns a Complete job if and
only if some poll within the timeout window finds the status response
containing the job's entry with the `outputs` key present — an entry
whose outputs mapping is empty also completes; only an absent entry or
an absent `outputs` key keeps polling. -/
theorem C2_complete_iff (hist : Nat → Option HistEntry) (T : Int) :
    (∃ e, wait_for_completion hist T = WaitResult.complete e) ↔
      (∃ n : Nat, 2 * (n : Int) < T ∧ entryHasOutputs (hist n) = true) := by
  rw [wait_for_completion, waitFrom_complete_iff]
  constructor
  · rintro ⟨m, _, hmt, hme⟩
    exact ⟨m, hmt, hme⟩
  · rintro ⟨m, hmt, hme⟩
    exact ⟨m, Nat.zero_le m, hmt, hme⟩

/-! ## Claim C3: timeout instead of hanging, one poll at timeout 1 -/

/-- C3: when the status endpoint never reports outputs for the job id,
`wait_for_completion` terminates with the timeout failure for any
timeout; and with timeout 1 (poll interval 2) exactly one poll is issued
before the failure. -/
theorem C3_never_complete_times_out (hist : Nat → Option HistEntry) (T : Int)
    (h : ∀ n, entryHasOutputs (hist n) = false) :
    wait_for_completion hist T = WaitResult.timedOut T ∧ waitPolls hist 1 = 1 :=
  ⟨waitFrom_never hist T h 0, pollsFrom_never_one hist h⟩

/-- Witness for C3: an engine that never lists the job id. -/
theorem C3_witness :
    wait_for_completion (fun _ => none) 7 = WaitResult.timedOut 7 ∧
      waitPolls (fun _ => none) 1 = 1 :=
  C3_never_complete_times_out (fun _ => none) 7 (fun _ => rfl)

/-! ## Claim C8: non-positive timeout means zero polls -/

/-- C8: for any timeout ≤ 0 the deadline check fails before the first
poll, so `wait_for_completion` issues zero status requests and fails
immediately with the timeout error. -/
theorem C8_nonpositive_timeout (hist : Nat → Option HistEntry) (T : Int)
    (hT : T ≤ 0) :
    wait_for_completion hist T = WaitResult.timedOut T ∧ waitPolls hist T = 0 :=
  ⟨waitFrom_neg hist T 0 (by omega), pollsFrom_neg hist T 0 (by omega)⟩

/-- Witness for C8: timeout 0 against an engine that would answer
complete on the first poll — it is still never polled. -/
theorem C8_witness :
    wait_for_completion (fun _ => some ⟨some []⟩) 0 = WaitResult.timedOut 0 ∧
      waitPolls (fun _ => some ⟨some []⟩) 0 = 0 :=
  C8_nonpositive_timeout (fun _ => some ⟨some []⟩) 0 (by omega)

/-! ## Artifact-scan lemmas -/

theorem gip_first_some (view : String → String → Bytes) (fs : FS) :
    ∀ (outputs : List (String × NodeOutput)) (img : ImgInfo),
      firstImage outputs = some img →
      get_image_path view fs outputs =
        (some img.filename,
          writeFile fs img.filename (view img.filename (img.subfolder.getD ""))) := by
  intro outputs
  induction outputs with
  | nil => intro img h; simp [firstImage] at h
  | cons hd tl ih =>
    obtain ⟨id, no⟩ := hd
    obtain ⟨imgs⟩ := no
    intro img h
    cases imgs with
    | none => exact ih img h
    | some l =>
      cases l with
      | nil => exact ih img h
      | cons i0 rest =>
        have hi : i0 = img := by simpa [firstImage] using h
        subst hi
        rfl

theorem gip_first_none (view : String → String → Bytes) (fs : FS) :
    ∀ outputs : List (String × NodeOutput), firstImage outputs = none →
      get_image_path view fs outputs = (none, fs) := by
  intro outputs
  induction outputs with
  | nil => intro _; rfl
  | cons hd tl ih =>
    obtain ⟨id, no⟩ := hd
    obtain ⟨imgs⟩ := no
    intro h
    cases imgs with
    | none => exact ih h
    | some l =>
      cases l with
      | nil => exact ih h
      | cons i0 rest => simp [firstImage] at h

theorem firstImage_of_all_empty :
    ∀ outputs : List (String × NodeOutput),
      (∀ p ∈ outputs, p.2.images.getD [] = []) → firstImage outputs = none := by
  intro outputs
  induction outputs with
  | nil => intro _; rfl
  | cons hd tl ih =>
    obtain ⟨id, no⟩ := hd
    obtain ⟨imgs⟩ := no
    intro h
    have hhd := h (id, ⟨imgs⟩) (List.mem_cons_self _ _)
    have htl : ∀ p ∈ tl, p.2.images.getD [] = [] :=
      fun p hp => h p (List.mem_cons_of_mem _ hp)
    cases imgs with
    | none => exact ih htl
    | some l =>
      simp at hhd
      subst hhd
      exact ih htl

/-! ## Claim C5: first artifact download and persistence -/

/-- C5: `get_image_path` scans the outputs in engine order; the first
node with a non-empty `images` list has its first image downloaded and
written under the output directory under the engine-supplied filename —
overwriting any existing file of that name, as the read-back shows —
and its local path is returned; when no node bears an image the scan
returns no path, and `generate` then fails with
`ValueError("No image found in generation output")`. -/
theorem C5_first_artifact (view : String → String → Bytes) (fs : FS)
    (outputs : List (String × NodeOutput)) :
    (∀ img : ImgInfo, firstImage outputs = some img →
      get_image_path view fs outputs =
        (some img.filename,
          writeFile fs img.filename (view img.filename (img.subfolder.getD ""))) ∧
      readFile (get_image_path view fs outputs).2 img.filename =
        some (view img.filename (img.subfolder.getD ""))) ∧
    (firstImage outputs = none → get_image_path view fs outputs = (none, fs)) ∧
    (∀ entry : HistEntry, entry.outputs = some outputs →
      firstImage outputs = none →
      generate_result (WaitResult.complete entry) view fs =
        Except.error GenError.noImage) := by
  refine ⟨?_, gip_first_none view fs outputs, ?_⟩
  · intro img h
    have hg := gip_first_some view fs outputs img h
    refine ⟨hg, ?_⟩
    rw [hg]
    exact readFile_writeFile fs img.filename _
  · intro entry he hnone
    have hg := gip_first_none view fs outputs hnone
    simp [generate_result, he, hg]

/-- Witness for C5 at the spec's mocked engine: one output node
`node_a` with a single image `x.png` in subfolder `""`, a download body
`[9, 9, 9]`, and an output directory that already holds a stale
`x.png`, which gets overwritten. -/
theorem C5_witness :
    get_image_path (fun _ _ => [9, 9, 9]) [("x.png", [0])]
        [("node_a", ⟨some [⟨"x.png", some ""⟩]⟩)] =
      (some "x.png", [("x.png", [9, 9, 9])]) ∧
    readFile
      (get_image_path (fun _ _ => [9, 9, 9]) [("x.png", [0])]
        [("node_a", ⟨some [⟨"x.png", some ""⟩]⟩)]).2 "x.png" = some [9, 9, 9] :=
  (C5_first_artifact (fun _ _ => [9, 9, 9]) [("x.png", [0])]
    [("node_a", ⟨some [⟨"x.png", some ""⟩]⟩)]).1 ⟨"x.png", some ""⟩ rfl

/-! ## Claim C9: empty image lists are skipped, not terminal -/

/-- C9: an output node whose `images` key holds an empty list yields no
artifact and does not stop the scan (the scan on it equals the scan on
the remaining nodes); the artifact returned is the first image of the
first node whose image list is non-empty; and when every node's image
list is empty (or absent) the result is no artifact and the directory
is untouched. -/
theorem C9_empty_images_skipped (view : String → String → Bytes) (fs : FS) :
    (∀ (id : String) (rest : List (String × NodeOutput)),
      get_image_path view fs ((id, ⟨some []⟩) :: rest) =
        get_image_path view fs rest) ∧
    (∀ (outputs : List (String × NodeOutput)) (img : ImgInfo),
      firstImage outputs = some img →
      (get_image_path view fs outputs).1 = some img.filename) ∧
    (∀ outputs : List (String × NodeOutput),
      (∀ p ∈ outputs, p.2.images.getD [] = []) →
      get_image_path view fs outputs = (none, fs)) := by
  refine ⟨fun id rest => rfl, ?_, ?_⟩
  · intro outputs img h
    rw [gip_first_some view fs outputs img h]
  · intro outputs h
    exact gip_first_none view fs outputs (firstImage_of_all_empty outputs h)

/-- Witness for C9: node `a` has an empty image list, node `b` bears
`y.png`; the scan skips `a` and returns `b`'s image.  With both lists
empty, the result is no artifact. -/
theorem C9_witness :
    (get_image_path (fun _ _ => [1]) []
        [("a", ⟨some []⟩), ("b", ⟨some [⟨"y.png", none⟩]⟩)]).1 = some "y.png" ∧
    get_image_path (fun _ _ => [1]) [] [("a", ⟨some []⟩), ("b", ⟨some []⟩)] =
      (none, []) :=
  ⟨(C9_empty_images_skipped (fun _ _ => [1]) []).2.1
      [("a", ⟨some []⟩), ("b", ⟨some [⟨"y.png", none⟩]⟩)] ⟨"y.png", none⟩ rfl,
    (C9_empty_images_skipped (fun _ _ => [1]) []).2.2
      [("a", ⟨some []⟩), ("b", ⟨some []⟩)] (by decide)⟩

/-! ## Claim C7: the status probe never propagates failures -/

/-- C7: `check_comfyui_status` is a total function into `StatusResult`
(nothing escapes its `try/except`): a failing system-stats read, or a
failing queue read after a successful stats read, each yield the
`statusFailure` result — `success = false`, `status =
"not_responding"`, and the raw error string — and only when both reads
succeed is `success = true`. -/
theorem C7_probe_never_raises (stats : Except String SystemStats)
    (queue : Except String QueueInfo) :
    (∀ e, stats = Except.error e →
      check_comfyui_status stats queue = statusFailure e) ∧
    (∀ st e, stats = Except.ok st → queue = Except.error e →
      check_comfyui_status stats queue = statusFailure e) ∧
    (∀ st q, stats = Except.ok st → queue = Except.ok q →
      (check_comfyui_status stats queue).success = true) := by
  refine ⟨?_, ?_, ?_⟩
  · intro e he
    subst he
    rfl
  · intro st e hst hq
    subst hst
    subst hq
    rfl
  · intro st q hst hq
    subst hst
    subst hq
    rfl

/-- Witness for C7: a connection error on the stats read collapses to
the unreachable result carrying the raw error. -/
theorem C7_witness :
    check_comfyui_status (Except.error "ConnectionError") (Except.ok ⟨[], []⟩) =
      statusFailure "ConnectionError" :=
  (C7_probe_never_raises (Except.error "ConnectionError")
    (Except.ok ⟨[], []⟩)).1 "ConnectionError" rfl

/-! ## Claim C10: unknown size strings default to 1024x1024 -/

/-- C10: `generate_image` with a size string other than the four mapped
ones does not fail on the size argument — `size_map.get(size, (1024,
1024))` silently yields width 1024 and height 1024. -/
theorem C10_unknown_size_defaults (prompt size quality style : String)
    (h1 : size ≠ "512x512") (h2 : size ≠ "1024x1024")
    (h3 : size ≠ "1024x1792") (h4 : size ≠ "1792x1024") :
    (generate_image_args prompt size quality style).width = 1024 ∧
    (generate_image_args prompt size quality style).height = 1024 := by
  constructor <;> simp [generate_image_args, size_map_lookup, h1, h2, h3, h4]

/-- Witness for C10 at the unmapped size string "800x600". -/
theorem C10_witness :
    (generate_image_args "cat" "800x600" "standard" "natural").width = 1024 ∧
    (generate_image_args "cat" "800x600" "standard" "natural").height = 1024 :=
  C10_unknown_size_defaults "cat" "800x600" "standard" "natural"
    (by decide) (by decide) (by decide) (by decide)

end ComfyUI
